import Mathlib

/-!
Shallow embedding of the ACCREDEFI-RECLAIM identity / claims / factory /
compliance core (TON OnchainID contracts and their TypeScript wrappers).

The Tact contract bodies (TonIdentity.tact, TonClaimIssuer.tact,
TonIdentityFactory.tact, TonIdentityGateway.tact) are not part of the
repository snapshot; only their TypeScript wrappers, deploy scripts, the ABI
error table and the jest test suites are.  Stateful operations below are
therefore modelled from the specification, pinned wherever possible to the
exit codes and behaviours the in-repository tests and ABI table demand.
Pure TypeScript functions (config-cell serialization, address computation)
are translated directly from the wrapper sources.

Addresses, key ids, cells and opaque payloads are modelled as `Nat`;
fallible contract receivers return `Except code state`, where an error
means the transaction aborts and the contract state is unchanged.
-/

/-- Error code 100 from the ABI table in src/unnamed/part_000. -/
def UNAUTHORIZED : Nat := 100

/-- Error code 101 from the ABI table in src/unnamed/part_000. -/
def INVALID_PARAMETERS : Nat := 101

/-- Error code 102 from the ABI table in src/unnamed/part_000. -/
def INSUFFICIENT_BALANCE : Nat := 102

/-- Error code 200 from the ABI table in src/unnamed/part_000. -/
def KEY_NOT_FOUND : Nat := 200

/-- Error code 201 from the ABI table in src/unnamed/part_000. -/
def KEY_ALREADY_EXISTS : Nat := 201

/-- Error code 202 from the ABI table in src/unnamed/part_000. -/
def INVALID_KEY_PURPOSE : Nat := 202

/-- Error code 203 from the ABI table in src/unnamed/part_000. -/
def CANNOT_REMOVE_LAST_MANAGEMENT_KEY : Nat := 203

/-- Error code 204 from the ABI table in src/unnamed/part_000. -/
def INVALID_NONCE : Nat := 204

/-- Error code 300 from the TonClaimIssuer tests in src/unnamed/part_003. -/
def CLAIM_NOT_FOUND : Nat := 300

/-- Error code 303 from the TonClaimIssuer tests in src/unnamed/part_003. -/
def CLAIM_REVOKED : Nat := 303

/-- Error code 304 from the TonClaimIssuer tests in src/unnamed/part_003. -/
def INVALID_ISSUER : Nat := 304

/-- The full error table declared by `TonIdentityABI.errors` in
src/unnamed/part_000, lines 74-107, as (code, message) pairs. -/
def tonIdentityAbiErrors : List (Nat × String) :=
  [(2, "Stack underflow"), (3, "Stack overflow"), (4, "Integer overflow"),
   (5, "Integer out of expected range"), (6, "Invalid opcode"),
   (7, "Type check error"), (8, "Cell overflow"), (9, "Cell underflow"),
   (10, "Dictionary error"), (13, "Out of gas error"),
   (32, "Method ID not found"), (34, "Action error"), (37, "Not enough TON"),
   (38, "Not enough extra-currencies"), (128, "Null reference exception"),
   (129, "Invalid serialization prefix"), (130, "Invalid incoming message"),
   (131, "Constraints error"), (132, "Access denied"),
   (133, "Contract stopped"), (134, "Invalid argument"),
   (135, "Code of a contract was not found"), (136, "Invalid address"),
   (137, "Masterchain support is not enabled for this contract"),
   (100, "Unauthorized access"), (101, "Invalid parameters"),
   (102, "Insufficient balance"), (200, "Key not found"),
   (201, "Key already exists"), (202, "Invalid key purpose"),
   (203, "Cannot remove last management key"),
   (204, "Invalid execution nonce")]

/-- Key purpose 1 (MANAGEMENT) per the tests and deploy script. -/
def MANAGEMENT : Nat := 1

/-- Key purpose 2 (ACTION) per the tests. -/
def ACTION : Nat := 2

/-- Key purpose 3 (CLAIM_SIGNER) per the tests. -/
def CLAIM_SIGNER : Nat := 3

/-- Key purpose 4 (ENCRYPTION) per the spec's four-value enumeration. -/
def ENCRYPTION : Nat := 4

/-- Tests whether a purpose is one of the four enumerated values. -/
def validPurpose (p : Nat) : Bool :=
  p == MANAGEMENT || p == ACTION || p == CLAIM_SIGNER || p == ENCRYPTION

/-- Modelled from the spec: the supported key types are a small enumerated
set of cryptographic schemes (ECDSA = 1, Ed25519 = 2); the test suite only
pins that keyType 1 is accepted and keyType 99 is rejected. -/
def validKeyType (t : Nat) : Bool :=
  t == 1 || t == 2

/-- A key entry in the identity's key dictionary: id, purpose, key type. -/
structure KeyRecord where
  keyId : Nat
  purpose : Nat
  keyType : Nat
deriving Repr, DecidableEq

/-- State of one TonIdentity contract: the key dictionary and the execution
nonce, mirroring `TonIdentityConfig` in src/unnamed/part_000. -/
structure IdentityState where
  keys : List KeyRecord
  executionNonce : Nat
deriving Repr, DecidableEq

/-- A freshly deployed identity holds exactly the owner's key with purpose
MANAGEMENT and key type ECDSA, per the test
`should add management key on deployment` (src/unnamed/part_001). -/
def initIdentity (ownerKey : Nat) : IdentityState :=
  { keys := [⟨ownerKey, MANAGEMENT, 1⟩], executionNonce := 0 }

/-- Dictionary lookup for a key id (the `getKey` getter). -/
def getKey (s : IdentityState) (k : Nat) : Option KeyRecord :=
  s.keys.find? (fun r => r.keyId == k)

/-- The `keyHasPurpose` getter. -/
def keyHasPurpose (s : IdentityState) (k p : Nat) : Bool :=
  s.keys.any (fun r => r.keyId == k && r.purpose == p)

/-- Number of keys currently holding the MANAGEMENT purpose. -/
def mgmtCount (s : IdentityState) : Nat :=
  s.keys.countP (fun r => r.purpose == MANAGEMENT)

/-- Modelled from the spec: the `AddKey` receiver of the missing
TonIdentity.tact.  Requires a MANAGEMENT caller (exit 100), a purpose among
the four enumerated values (exit 202), a supported key type (exit 101 per
the test `should validate key types`), and a fresh key id (exit 201). -/
def addKey (s : IdentityState) (caller newKey purpose keyType : Nat) :
    Except Nat IdentityState :=
  if !(keyHasPurpose s caller MANAGEMENT) then .error UNAUTHORIZED
  else if !(validPurpose purpose) then .error INVALID_KEY_PURPOSE
  else if !(validKeyType keyType) then .error INVALID_PARAMETERS
  else if (getKey s newKey).isSome then .error KEY_ALREADY_EXISTS
  else .ok { s with keys := s.keys ++ [⟨newKey, purpose, keyType⟩] }

/-- Modelled from the spec: the `RemoveKey` receiver of the missing
TonIdentity.tact.  Requires a MANAGEMENT caller (exit 100) and a present
(key, purpose) entry (exit 200); refuses to delete the sole remaining
MANAGEMENT key (exit 203); otherwise deletes the dictionary entry. -/
def removeKey (s : IdentityState) (caller key purpose : Nat) :
    Except Nat IdentityState :=
  if !(keyHasPurpose s caller MANAGEMENT) then .error UNAUTHORIZED
  else if !(keyHasPurpose s key purpose) then .error KEY_NOT_FOUND
  else if purpose == MANAGEMENT && mgmtCount s == 1 then
    .error CANNOT_REMOVE_LAST_MANAGEMENT_KEY
  else .ok { s with keys := s.keys.eraseP (fun r => r.keyId == key && r.purpose == purpose) }

/-- Modelled from the spec: the `Execute` receiver of the missing
TonIdentity.tact.  The caller must hold MANAGEMENT or ACTION purpose
(exit 100 otherwise); a successful call increments the execution nonce by
exactly one while forwarding the payload to the target. -/
def execute (s : IdentityState) (caller target amount : Nat) :
    Except Nat IdentityState :=
  if keyHasPurpose s caller MANAGEMENT || keyHasPurpose s caller ACTION then
    .ok { s with executionNonce := s.executionNonce + 1 }
  else .error UNAUTHORIZED

/-- Key-management calls considered by the P3 invariant. -/
inductive IdentityOp where
  | addKeyOp (caller newKey purpose keyType : Nat)
  | removeKeyOp (caller key purpose : Nat)
deriving Repr, DecidableEq

/-- One transaction: a failed call aborts and leaves the state unchanged. -/
def stepIdentity (s : IdentityState) (op : IdentityOp) : IdentityState :=
  match op with
  | .addKeyOp c k p t =>
    match addKey s c k p t with
    | .ok s' => s'
    | .error _ => s
  | .removeKeyOp c k p =>
    match removeKey s c k p with
    | .ok s' => s'
    | .error _ => s

/-- Runs a sequence of key-management transactions. -/
def runIdentity (s : IdentityState) (ops : List IdentityOp) : IdentityState :=
  ops.foldl stepIdentity s

theorem countP_eraseP_ge {α : Type} (p q : α → Bool) (l : List α) :
    l.countP q - 1 ≤ (l.eraseP p).countP q := by
  induction l with
  | nil => simp
  | cons a l ih =>
    rw [List.eraseP_cons]
    cases hpa : p a with
    | true =>
      simp only [cond_true, List.countP_cons]
      cases hqa : q a <;> simp <;> omega
    | false =>
      simp only [cond_false, List.countP_cons]
      cases hqa : q a <;> simp <;> omega

theorem countP_eraseP_disjoint {α : Type} (p q : α → Bool) (l : List α)
    (h : ∀ a, p a = true → q a = false) :
    (l.eraseP p).countP q = l.countP q := by
  induction l with
  | nil => simp
  | cons a l ih =>
    rw [List.eraseP_cons]
    cases hpa : p a with
    | true =>
      have hqa := h a hpa
      simp [List.countP_cons, hqa]
    | false =>
      simp [List.countP_cons, ih]

theorem addKey_ok_iff (s : IdentityState) (c k p t : Nat) (s' : IdentityState) :
    addKey s c k p t = .ok s' ↔
      keyHasPurpose s c MANAGEMENT = true ∧ validPurpose p = true ∧
      validKeyType t = true ∧ (getKey s k).isSome = false ∧
      s' = { s with keys := s.keys ++ [⟨k, p, t⟩] } := by
  unfold addKey
  split_ifs with h1 h2 h3 h4 <;> simp_all <;> exact eq_comm

theorem removeKey_ok_iff (s : IdentityState) (c k p : Nat) (s' : IdentityState) :
    removeKey s c k p = .ok s' ↔
      keyHasPurpose s c MANAGEMENT = true ∧ keyHasPurpose s k p = true ∧
      (p == MANAGEMENT && mgmtCount s == 1) = false ∧
      s' = { s with
        keys := s.keys.eraseP (fun r => r.keyId == k && r.purpose == p) } := by
  unfold removeKey
  split_ifs with h1 h2 h3 <;> simp_all <;> exact eq_comm

theorem mgmtCount_stepIdentity (s : IdentityState) (op : IdentityOp)
    (h : 1 ≤ mgmtCount s) : 1 ≤ mgmtCount (stepIdentity s op) := by
  cases op with
  | addKeyOp c k p t =>
    cases hres : addKey s c k p t with
    | error e => simpa [stepIdentity, hres] using h
    | ok s' =>
      obtain ⟨_, _, _, _, hs'⟩ := (addKey_ok_iff s c k p t s').mp hres
      subst hs'
      simp only [stepIdentity, hres, mgmtCount, List.countP_append] at *
      omega
  | removeKeyOp c k p =>
    cases hres : removeKey s c k p with
    | error e => simpa [stepIdentity, hres] using h
    | ok s' =>
      obtain ⟨hc, hk, hguard, hs'⟩ := (removeKey_ok_iff s c k p s').mp hres
      subst hs'
      simp only [stepIdentity, hres, mgmtCount] at *
      by_cases hp : p = MANAGEMENT
      · have hone : s.keys.countP (fun r => r.purpose == MANAGEMENT) ≠ 1 := by
          intro h1
          rw [hp] at hguard
          simp [mgmtCount, h1] at hguard
        have hpos : 0 < s.keys.countP (fun r => r.purpose == MANAGEMENT) := by
          subst hp
          simp only [keyHasPurpose, List.any_eq_true, Bool.and_eq_true] at hk
          obtain ⟨r, hr, _, hrp⟩ := hk
          exact List.countP_pos_iff.mpr ⟨r, hr, hrp⟩
        have := countP_eraseP_ge (fun r => r.keyId == k && r.purpose == p)
          (fun r => r.purpose == MANAGEMENT) s.keys
        omega
      · have := countP_eraseP_disjoint (fun r => r.keyId == k && r.purpose == p)
          (fun r => r.purpose == MANAGEMENT) s.keys (by
            intro a ha
            simp only [Bool.and_eq_true, beq_iff_eq] at ha
            simp only [beq_eq_false_iff_ne, ne_eq]
            intro hmg
            exact hp (ha.2 ▸ hmg))
        omega

theorem mgmtCount_runIdentity (s : IdentityState) (ops : List IdentityOp)
    (h : 1 ≤ mgmtCount s) : 1 ≤ mgmtCount (runIdentity s ops) := by
  induction ops generalizing s with
  | nil => exact h
  | cons op ops ih => exact ih (stepIdentity s op) (mgmtCount_stepIdentity s op h)

/-- C1: across every sequence of addKey/removeKey transactions on one
Identity the number of MANAGEMENT keys never reaches zero, and a removeKey
whose purpose is MANAGEMENT targeting the sole remaining MANAGEMENT key
fails with CannotRemoveLastManagementKey (code 203), leaving the state (and
hence the key) unchanged. -/
theorem management_key_floor :
    (∀ (ownerKey : Nat) (ops : List IdentityOp),
      1 ≤ mgmtCount (runIdentity (initIdentity ownerKey) ops)) ∧
    (∀ (s : IdentityState) (caller key : Nat),
      keyHasPurpose s caller MANAGEMENT = true →
      keyHasPurpose s key MANAGEMENT = true → mgmtCount s = 1 →
        removeKey s caller key MANAGEMENT =
          .error CANNOT_REMOVE_LAST_MANAGEMENT_KEY ∧
        stepIdentity s (.removeKeyOp caller key MANAGEMENT) = s) := by
  constructor
  · intro ownerKey ops
    apply mgmtCount_runIdentity
    simp [mgmtCount, initIdentity, List.countP_cons]
  · intro s caller key hcaller hkey hone
    have hrem : removeKey s caller key MANAGEMENT =
        .error CANNOT_REMOVE_LAST_MANAGEMENT_KEY := by
      simp [removeKey, hcaller, hkey, hone]
    exact ⟨hrem, by simp [stepIdentity, hrem]⟩

/-- Witness for C1: removing the sole MANAGEMENT key of a fresh identity
fails with code 203 and leaves the state unchanged. -/
theorem management_key_floor_witness :
    removeKey (initIdentity 7) 7 7 MANAGEMENT =
      .error CANNOT_REMOVE_LAST_MANAGEMENT_KEY ∧
    stepIdentity (initIdentity 7) (.removeKeyOp 7 7 MANAGEMENT) =
      initIdentity 7 :=
  management_key_floor.2 (initIdentity 7) 7 7 (by decide) (by decide) (by decide)

/-- C6: an execute call from a caller with neither a MANAGEMENT nor an
ACTION key fails Unauthorized (code 100) without touching the nonce, and a
successful execute increments the execution nonce by exactly one. -/
theorem execute_nonce_atomicity :
    (∀ (s : IdentityState) (caller target amount : Nat),
      keyHasPurpose s caller MANAGEMENT = false →
      keyHasPurpose s caller ACTION = false →
        execute s caller target amount = .error UNAUTHORIZED) ∧
    (∀ (s : IdentityState) (caller target amount : Nat) (s' : IdentityState),
      execute s caller target amount = .ok s' →
        s'.executionNonce = s.executionNonce + 1) := by
  constructor
  · intro s caller target amount hm ha
    simp [execute, hm, ha]
  · intro s caller target amount s' hok
    unfold execute at hok
    split_ifs at hok
    injection hok with hok
    rw [← hok]

/-- Witness for C6: on a fresh identity, a stranger's execute fails with
code 100, and the owner's execute bumps the nonce from 0 to 1. -/
theorem execute_nonce_atomicity_witness :
    execute (initIdentity 7) 8 55 10 = .error UNAUTHORIZED ∧
    ({ keys := [⟨7, MANAGEMENT, 1⟩], executionNonce := 1 } :
        IdentityState).executionNonce = (initIdentity 7).executionNonce + 1 :=
  ⟨execute_nonce_atomicity.1 (initIdentity 7) 8 55 10 (by decide) (by decide),
   execute_nonce_atomicity.2 (initIdentity 7) 7 55 10
     { keys := [⟨7, MANAGEMENT, 1⟩], executionNonce := 1 } rfl⟩

/-- C8 amended behaviour: with an authorized MANAGEMENT caller, a purpose
outside the four enumerated values fails with InvalidKeyPurpose (202), and
an unsupported key type fails with the generic INVALID_PARAMETERS code
(101); both are errors, so no key is inserted. -/
theorem addKey_validation_codes :
    (∀ (s : IdentityState) (caller k p t : Nat),
      keyHasPurpose s caller MANAGEMENT = true → validPurpose p = false →
        addKey s caller k p t = .error INVALID_KEY_PURPOSE) ∧
    (∀ (s : IdentityState) (caller k p t : Nat),
      keyHasPurpose s caller MANAGEMENT = true → validPurpose p = true →
      validKeyType t = false →
        addKey s caller k p t = .error INVALID_PARAMETERS) := by
  constructor
  · intro s caller k p t hc hp
    simp [addKey, hc, hp]
  · intro s caller k p t hc hp ht
    simp [addKey, hc, hp, ht]

/-- Witness for the amended C8: purpose 99 is rejected with code 202 and
key type 99 with code 101 on a fresh identity. -/
theorem addKey_validation_codes_witness :
    addKey (initIdentity 7) 7 1234 99 1 = .error INVALID_KEY_PURPOSE ∧
    addKey (initIdentity 7) 7 1234 ACTION 99 = .error INVALID_PARAMETERS :=
  ⟨addKey_validation_codes.1 (initIdentity 7) 7 1234 99 1 (by decide) (by decide),
   addKey_validation_codes.2 (initIdentity 7) 7 1234 ACTION 99 (by decide)
     (by decide) (by decide)⟩

/-- C8 counterexample: an unsupported key type does not surface a dedicated
InvalidKeyType code.  The call fails with 101, which is exactly the generic
"Invalid parameters" entry of the surfaced ABI taxonomy, and no entry of
that taxonomy is a key-type-specific error. -/
theorem no_distinct_invalid_key_type_code :
    addKey (initIdentity 7) 7 1234 ACTION 99 = .error INVALID_PARAMETERS ∧
    (tonIdentityAbiErrors.find? (fun e => e.1 == INVALID_PARAMETERS)).map
        Prod.snd = some "Invalid parameters" ∧
    tonIdentityAbiErrors.all (fun e => !(e.2 == "Invalid key type")) = true := by
  refine ⟨rfl, by decide, by decide⟩

/-- One claim record as returned by the `getClaim` getter of the
TonClaimIssuer wrapper (topic, scheme, issuer, signature, data, uri,
valid); the target identity address is kept for the topic index. -/
structure ClaimRecord where
  identity : Nat
  topic : Nat
  scheme : Nat
  issuer : Nat
  signature : Nat
  payload : Nat
  uri : String
  valid : Bool
deriving Repr, DecidableEq

/-- State of one TonClaimIssuer contract, mirroring `TonClaimIssuerConfig`
plus the claim store the getters read; `revocations` is the audit trail of
revocation reasons. -/
structure IssuerState where
  owner : Nat
  nextClaimId : Nat
  authorizedIssuers : List Nat
  claims : List (Nat × ClaimRecord)
  revocations : List (Nat × String)
deriving Repr, DecidableEq

/-- A freshly deployed issuer: deployer auto-authorized, next claim id 1,
no claims, per the test fixture in src/unnamed/part_003. -/
def initIssuer (deployer : Nat) : IssuerState :=
  { owner := deployer, nextClaimId := 1, authorizedIssuers := [deployer],
    claims := [], revocations := [] }

/-- The `getClaim` getter: lookup of a claim id in the claim store. -/
def getClaimRec (s : IssuerState) (id : Nat) : Option ClaimRecord :=
  (s.claims.find? (fun e => e.1 == id)).map Prod.snd

/-- The `isClaimValid` getter: false both for a missing id and for a claim
whose valid flag has been cleared. -/
def isClaimValid (s : IssuerState) (id : Nat) : Bool :=
  match getClaimRec s id with
  | some c => c.valid
  | none => false

/-- The `getClaimIdsByTopic` getter: ids of claims indexed under one
(identity, topic) pair. -/
def getClaimIdsByTopic (s : IssuerState) (ident topic : Nat) : List Nat :=
  (s.claims.filter (fun e => e.2.identity == ident && e.2.topic == topic)).map
    Prod.fst

/-- The `getClaimsByIssuer` getter: ids of claims created by one issuer. -/
def getClaimsByIssuer (s : IssuerState) (issuer : Nat) : List Nat :=
  (s.claims.filter (fun e => e.2.issuer == issuer)).map Prod.fst

/-- Modelled from the spec: the `AddClaim` receiver of the missing
TonClaimIssuer.tact.  Requires the caller to be an authorized issuer
(exit 304 otherwise), allocates the next claim id, and stores the claim
with issuer = caller and valid = true.  Returns the new state and the
allocated id. -/
def addClaim (s : IssuerState) (caller ident topic scheme payload sig : Nat)
    (uri : String) : Except Nat (IssuerState × Nat) :=
  if s.authorizedIssuers.contains caller then
    .ok ({ s with
      claims := s.claims ++
        [(s.nextClaimId,
          { identity := ident, topic := topic, scheme := scheme,
            issuer := caller, signature := sig, payload := payload,
            uri := uri, valid := true })],
      nextClaimId := s.nextClaimId + 1 }, s.nextClaimId)
  else .error INVALID_ISSUER

/-- Clears the valid flag of the claim stored under `id`, leaving every
other field and every other claim untouched. -/
def invalidateClaim (claims : List (Nat × ClaimRecord)) (id : Nat) :
    List (Nat × ClaimRecord) :=
  claims.map (fun e => if e.1 == id then (e.1, { e.2 with valid := false }) else e)

/-- Modelled from the spec: the `RemoveClaim` receiver of the missing
TonClaimIssuer.tact.  Fails 300 for an unknown id and 100 when the caller
is not the claim's original issuer; otherwise sets valid = false (the claim
record itself is never deleted and its id is never reused). -/
def removeClaim (s : IssuerState) (caller id : Nat) : Except Nat IssuerState :=
  match getClaimRec s id with
  | none => .error CLAIM_NOT_FOUND
  | some c =>
    if !(caller == c.issuer) then .error UNAUTHORIZED
    else .ok { s with claims := invalidateClaim s.claims id }

/-- Modelled from the spec: the `RevokeClaim` receiver of the missing
TonClaimIssuer.tact.  Same authorization as remove, and additionally fails
303 when the claim is already invalid; on success records the reason in the
audit trail. -/
def revokeClaim (s : IssuerState) (caller id : Nat) (reason : String) :
    Except Nat IssuerState :=
  match getClaimRec s id with
  | none => .error CLAIM_NOT_FOUND
  | some c =>
    if !(caller == c.issuer) then .error UNAUTHORIZED
    else if !c.valid then .error CLAIM_REVOKED
    else .ok { s with claims := invalidateClaim s.claims id,
                      revocations := s.revocations ++ [(id, reason)] }

/-- Claim-lifecycle calls considered by the P4 invariant. -/
inductive IssuerOp where
  | addClaimOp (caller ident topic scheme payload sig : Nat) (uri : String)
  | removeClaimOp (caller id : Nat)
  | revokeClaimOp (caller id : Nat) (reason : String)
deriving Repr, DecidableEq

/-- One transaction on the issuer: a failed call leaves the state unchanged. -/
def stepIssuer (s : IssuerState) (op : IssuerOp) : IssuerState :=
  match op with
  | .addClaimOp c i t sc d sg u =>
    match addClaim s c i t sc d sg u with
    | .ok (s', _) => s'
    | .error _ => s
  | .removeClaimOp c id =>
    match removeClaim s c id with
    | .ok s' => s'
    | .error _ => s
  | .revokeClaimOp c id r =>
    match revokeClaim s c id r with
    | .ok s' => s'
    | .error _ => s

/-- Runs a sequence of claim transactions from a fresh issuer. -/
def runIssuer (deployer : Nat) (ops : List IssuerOp) : IssuerState :=
  ops.foldl stepIssuer (initIssuer deployer)

/-- C3: removeClaim and revokeClaim called on a stored claim by any account
other than the claim's original issuer fail with UNAUTHORIZED (code 100),
so the claim's valid flag is untouched; the caller being the issuer
contract's owner grants no exception, since the check is only against
`claim.issuer`. -/
theorem issuer_only_mutation :
    ∀ (s : IssuerState) (id : Nat) (c : ClaimRecord) (caller : Nat)
      (reason : String),
      getClaimRec s id = some c → caller ≠ c.issuer →
        removeClaim s caller id = .error UNAUTHORIZED ∧
        revokeClaim s caller id reason = .error UNAUTHORIZED := by
  intro s id c caller reason hfound hne
  have hbeq : (caller == c.issuer) = false := by
    simpa using hne
  constructor
  · simp [removeClaim, hfound, hbeq]
  · simp [revokeClaim, hfound, hbeq]

/-- Witness for C3: on an issuer owned by account 5 holding a claim issued
by 5, account 6 (and in particular any non-issuer, owner included) cannot
remove or revoke claim 1. -/
theorem issuer_only_mutation_witness :
    removeClaim
      { owner := 6, nextClaimId := 2, authorizedIssuers := [5, 6],
        claims := [(1, { identity := 9, topic := 1, scheme := 1, issuer := 5,
                         signature := 0, payload := 0, uri := "", valid := true })],
        revocations := [] } 6 1 = .error UNAUTHORIZED ∧
    revokeClaim
      { owner := 6, nextClaimId := 2, authorizedIssuers := [5, 6],
        claims := [(1, { identity := 9, topic := 1, scheme := 1, issuer := 5,
                         signature := 0, payload := 0, uri := "", valid := true })],
        revocations := [] } 6 1 "dup" = .error UNAUTHORIZED :=
  issuer_only_mutation
    { owner := 6, nextClaimId := 2, authorizedIssuers := [5, 6],
      claims := [(1, { identity := 9, topic := 1, scheme := 1, issuer := 5,
                       signature := 0, payload := 0, uri := "", valid := true })],
      revocations := [] } 1
    { identity := 9, topic := 1, scheme := 1, issuer := 5,
      signature := 0, payload := 0, uri := "", valid := true } 6 "dup"
    rfl (by decide)

/-- C7: revoking an already-invalid claim as its original issuer fails with
CLAIM_REVOKED (303) and changes no state, and both removeClaim and
revokeClaim on a never-allocated id fail with CLAIM_NOT_FOUND (300). -/
theorem revoked_and_missing_claim_codes :
    (∀ (s : IssuerState) (id : Nat) (c : ClaimRecord) (reason : String),
      getClaimRec s id = some c → c.valid = false →
        revokeClaim s c.issuer id reason = .error CLAIM_REVOKED) ∧
    (∀ (s : IssuerState) (id caller : Nat) (reason : String),
      getClaimRec s id = none →
        removeClaim s caller id = .error CLAIM_NOT_FOUND ∧
        revokeClaim s caller id reason = .error CLAIM_NOT_FOUND) := by
  constructor
  · intro s id c reason hfound hinvalid
    simp [revokeClaim, hfound, hinvalid]
  · intro s id caller reason hnone
    exact ⟨by simp [removeClaim, hnone], by simp [revokeClaim, hnone]⟩

/-- Witness for C7: double revocation of claim 1 yields 303, and claim 999
was never allocated so both operations yield 300. -/
theorem revoked_and_missing_claim_codes_witness :
    revokeClaim
      { owner := 5, nextClaimId := 2, authorizedIssuers := [5],
        claims := [(1, { identity := 9, topic := 1, scheme := 1, issuer := 5,
                         signature := 0, payload := 0, uri := "",
                         valid := false })],
        revocations := [(1, "failed verification")] } 5 1 "dup" =
      .error CLAIM_REVOKED ∧
    removeClaim (initIssuer 5) 5 999 = .error CLAIM_NOT_FOUND ∧
    revokeClaim (initIssuer 5) 5 999 "x" = .error CLAIM_NOT_FOUND := by
  refine ⟨?_, ?_, ?_⟩
  · exact revoked_and_missing_claim_codes.1
      { owner := 5, nextClaimId := 2, authorizedIssuers := [5],
        claims := [(1, { identity := 9, topic := 1, scheme := 1, issuer := 5,
                         signature := 0, payload := 0, uri := "",
                         valid := false })],
        revocations := [(1, "failed verification")] } 1
      { identity := 9, topic := 1, scheme := 1, issuer := 5,
        signature := 0, payload := 0, uri := "", valid := false } "dup" rfl rfl
  · exact (revoked_and_missing_claim_codes.2 (initIssuer 5) 999 5 "x" rfl).1
  · exact (revoked_and_missing_claim_codes.2 (initIssuer 5) 999 5 "x" rfl).2

theorem invalidateClaim_map_fst (cl : List (Nat × ClaimRecord)) (id : Nat) :
    (invalidateClaim cl id).map Prod.fst = cl.map Prod.fst := by
  induction cl with
  | nil => rfl
  | cons e cl ih =>
    by_cases he : e.1 == id <;> simp_all [invalidateClaim]

theorem addClaim_ok_iff (s : IssuerState) (c i t sc d sg : Nat) (u : String)
    (s' : IssuerState) (id : Nat) :
    addClaim s c i t sc d sg u = .ok (s', id) ↔
      s.authorizedIssuers.contains c = true ∧ id = s.nextClaimId ∧
      s' = { s with
        claims := s.claims ++
          [(s.nextClaimId,
            { identity := i, topic := t, scheme := sc, issuer := c,
              signature := sg, payload := d, uri := u, valid := true })],
        nextClaimId := s.nextClaimId + 1 } := by
  unfold addClaim
  split_ifs with h1 <;> simp_all [eq_comm, and_comm]

/-- Invariant behind P4: the stored claim ids are exactly 1, 2, ...,
nextClaimId - 1 in allocation order. -/
def IdsInv (s : IssuerState) : Prop :=
  s.claims.map Prod.fst = List.range' 1 (s.nextClaimId - 1) ∧
  1 ≤ s.nextClaimId

theorem idsInv_step (s : IssuerState) (op : IssuerOp) (h : IdsInv s) :
    IdsInv (stepIssuer s op) := by
  obtain ⟨hids, hpos⟩ := h
  cases op with
  | addClaimOp c i t sc d sg u =>
    cases hres : addClaim s c i t sc d sg u with
    | error e => simpa [stepIssuer, hres] using ⟨hids, hpos⟩
    | ok pair =>
      obtain ⟨s', id⟩ := pair
      obtain ⟨hauth, hid, hs'⟩ := (addClaim_ok_iff s c i t sc d sg u s' id).mp hres
      subst hs'
      refine ⟨?_, by simp [stepIssuer, hres]⟩
      simp only [stepIssuer, hres, List.map_append, hids, List.map_cons,
        List.map_nil]
      have hsucc : s.nextClaimId + 1 - 1 = (s.nextClaimId - 1) + 1 := by omega
      rw [hsucc, List.range'_concat]
      have : 1 + (s.nextClaimId - 1) = s.nextClaimId := by omega
      simp [this]
  | removeClaimOp c id =>
    cases hres : removeClaim s c id with
    | error e => simpa [stepIssuer, hres] using ⟨hids, hpos⟩
    | ok s' =>
      have hs' : s' = { s with claims := invalidateClaim s.claims id } := by
        unfold removeClaim at hres
        cases hfound : getClaimRec s id with
        | none => simp [hfound] at hres
        | some cl =>
          rw [hfound] at hres
          dsimp only at hres
          split_ifs at hres
          injection hres with hres
          exact hres.symm
      subst hs'
      exact ⟨by simpa [stepIssuer, hres, invalidateClaim_map_fst] using hids,
        by simpa [stepIssuer, hres] using hpos⟩
  | revokeClaimOp c id r =>
    cases hres : revokeClaim s c id r with
    | error e => simpa [stepIssuer, hres] using ⟨hids, hpos⟩
    | ok s' =>
      have hs' : s'.claims = invalidateClaim s.claims id ∧
          s'.nextClaimId = s.nextClaimId := by
        unfold revokeClaim at hres
        cases hfound : getClaimRec s id with
        | none => simp [hfound] at hres
        | some cl =>
          rw [hfound] at hres
          dsimp only at hres
          split_ifs at hres
          injection hres with hres
          exact ⟨by rw [← hres], by rw [← hres]⟩
      refine ⟨?_, ?_⟩
      · simpa [stepIssuer, hres, hs'.1, hs'.2, invalidateClaim_map_fst]
          using hids
      · simpa [stepIssuer, hres, hs'.2] using hpos
  
/-- C4: starting from a fresh issuer, after any sequence of
addClaim/removeClaim/revokeClaim transactions the stored claim ids are
exactly 1, 2, ..., nextClaimId - 1 in allocation order — so ids assigned
by addClaim start at 1, are strictly increasing, and are never reassigned
even after a claim is terminated by removeClaim or revokeClaim. -/
theorem claim_monotonic_ids (deployer : Nat) (ops : List IssuerOp) :
    (runIssuer deployer ops).claims.map Prod.fst =
      List.range' 1 ((runIssuer deployer ops).nextClaimId - 1) ∧
    1 ≤ (runIssuer deployer ops).nextClaimId ∧
    ((runIssuer deployer ops).claims.map Prod.fst).Pairwise (· < ·) := by
  have hrun : ∀ (ops' : List IssuerOp) (s : IssuerState), IdsInv s →
      IdsInv (ops'.foldl stepIssuer s) := by
    intro ops'
    induction ops' with
    | nil => exact fun s hs => hs
    | cons op' rest ih =>
      intro s hs
      rw [List.foldl_cons]
      exact ih (stepIssuer s op') (idsInv_step s op' hs)
  have hinv : IdsInv (runIssuer deployer ops) :=
    hrun ops (initIssuer deployer)
      ⟨by simp [initIssuer], by simp [initIssuer]⟩
  refine ⟨hinv.1, hinv.2, ?_⟩
  rw [hinv.1]
  have : List.range' 1 ((runIssuer deployer ops).nextClaimId - 1) =
      (List.range ((runIssuer deployer ops).nextClaimId - 1)).map (1 + ·) := by
    rw [List.range'_eq_map_range]
  rw [this, List.pairwise_map]
  have := List.pairwise_lt_range ((runIssuer deployer ops).nextClaimId - 1)
  exact this.imp (by omega)

/-- Factory-level failures; the duplicate-deployment code is factory
specific (the test only pins success: false), so it is kept symbolic. -/
inductive FactoryError where
  | alreadyDeployed
  | unauthorized
deriving Repr, DecidableEq

/-- State of one TonIdentityFactory contract, mirroring
`TonIdentityFactoryConfig` (admin, identityCode, deploymentCount) plus the
registry of deployed identities the spec describes. -/
structure FactoryState where
  admin : Nat
  identityCode : Nat
  deploymentCount : Nat
  registry : List ((Nat × Nat) × Nat)
deriving Repr, DecidableEq

/-- A freshly deployed factory has an empty registry, per the test fixture
(deploymentCount 0) in TonIdentityFactory.spec.ts. -/
def initFactory (admin identityCode : Nat) : FactoryState :=
  { admin := admin, identityCode := identityCode, deploymentCount := 0,
    registry := [] }

/-- Modelled from the spec: the platform-standard deterministic address is
a pure content-addressed function of the implementation code and the
constructor arguments (owner, salt); `Nat.pair` serves as the injective
content-addressing. -/
def deterministicAddress (code owner salt : Nat) : Nat :=
  Nat.pair code (Nat.pair owner salt)

/-- The `getIdentityAddress` getter: pure address prediction from the
current implementation and the (owner, salt) pair. -/
def getIdentityAddress (s : FactoryState) (owner salt : Nat) : Nat :=
  deterministicAddress s.identityCode owner salt

/-- Registry lookup for one (owner, salt) pair. -/
def registryLookup (s : FactoryState) (owner salt : Nat) : Option Nat :=
  (s.registry.find? (fun e => e.1.1 == owner && e.1.2 == salt)).map Prod.snd

/-- The `isValidIdentity` getter: true only for addresses this factory has
itself deployed and recorded in its registry. -/
def isValidIdentity (s : FactoryState) (a : Nat) : Bool :=
  s.registry.any (fun e => e.2 == a)

/-- Modelled from the spec: the `DeployIdentity` receiver of the missing
TonIdentityFactory.tact.  A compare-and-set on the registry entry: fails
AlreadyDeployed when (owner, salt) is already registered, otherwise
records the predicted address and increments deploymentCount. -/
def deployIdentity (s : FactoryState) (owner salt : Nat) :
    Except FactoryError FactoryState :=
  if (registryLookup s owner salt).isSome then .error .alreadyDeployed
  else .ok { s with
    registry := s.registry ++ [((owner, salt), getIdentityAddress s owner salt)],
    deploymentCount := s.deploymentCount + 1 }

/-- Modelled from the spec: the `UpdateImplementation` receiver; admin-only
(exit 100 per the test), affecting future deployments only. -/
def updateImplementation (s : FactoryState) (caller newCode : Nat) :
    Except FactoryError FactoryState :=
  if caller == s.admin then .ok { s with identityCode := newCode }
  else .error .unauthorized

/-- Factory calls considered by the P2 uniqueness property. -/
inductive FactoryOp where
  | deployOp (owner salt : Nat)
  | updateOp (caller newCode : Nat)
deriving Repr, DecidableEq

/-- One factory transaction: a failed call leaves the state unchanged. -/
def stepFactory (s : FactoryState) (op : FactoryOp) : FactoryState :=
  match op with
  | .deployOp o v =>
    match deployIdentity s o v with
    | .ok s' => s'
    | .error _ => s
  | .updateOp c n =>
    match updateImplementation s c n with
    | .ok s' => s'
    | .error _ => s

theorem registryLookup_append (s : FactoryState) (owner salt : Nat)
    (e : (Nat × Nat) × Nat) (h : (registryLookup s owner salt).isSome) :
    (s.registry ++ [e]).find? (fun x => x.1.1 == owner && x.1.2 == salt) =
      s.registry.find? (fun x => x.1.1 == owner && x.1.2 == salt) := by
  unfold registryLookup at h
  cases hf : s.registry.find? (fun x => x.1.1 == owner && x.1.2 == salt) with
  | none => simp [hf] at h
  | some v => simp [List.find?_append, hf]

/-- C2: for every (owner, salt) pair, deployment is a compare-and-set on
the registry: a deploy on a registered pair fails AlreadyDeployed and the
whole transaction leaves the factory unchanged; a successful deploy
requires the pair to be unregistered and writes exactly the predicted
address; and once registered, no later transaction changes the pair's
registry entry — so at most one deployIdentity per pair ever succeeds and
the entry is written exactly once. -/
theorem deployment_uniqueness :
    (∀ (s : FactoryState) (owner salt : Nat),
      (registryLookup s owner salt).isSome = true →
        deployIdentity s owner salt = .error .alreadyDeployed ∧
        stepFactory s (.deployOp owner salt) = s) ∧
    (∀ (s : FactoryState) (owner salt : Nat) (s' : FactoryState),
      deployIdentity s owner salt = .ok s' →
        registryLookup s owner salt = none ∧
        registryLookup s' owner salt =
          some (getIdentityAddress s owner salt)) ∧
    (∀ (s : FactoryState) (owner salt : Nat) (op : FactoryOp),
      (registryLookup s owner salt).isSome = true →
        registryLookup (stepFactory s op) owner salt =
          registryLookup s owner salt) := by
  refine ⟨?_, ?_, ?_⟩
  · intro s owner salt hreg
    have herr : deployIdentity s owner salt = .error .alreadyDeployed := by
      simp [deployIdentity, hreg]
    exact ⟨herr, by simp [stepFactory, herr]⟩
  · intro s owner salt s' hok
    unfold deployIdentity at hok
    split_ifs at hok with hreg
    injection hok with hok
    constructor
    · unfold registryLookup at hreg ⊢
      cases hf : s.registry.find? (fun x => x.1.1 == owner && x.1.2 == salt) with
      | none => simp
      | some v => simp [hf] at hreg
    · rw [← hok]
      unfold registryLookup at hreg ⊢
      simp only [List.find?_append]
      cases hf : s.registry.find? (fun x => x.1.1 == owner && x.1.2 == salt) with
      | none => simp [List.find?]
      | some v => simp [hf] at hreg
  · intro s owner salt op hreg
    cases op with
    | deployOp o v =>
      cases hres : deployIdentity s o v with
      | error e => simp [stepFactory, hres]
      | ok s' =>
        simp only [stepFactory, hres]
        unfold deployIdentity at hres
        split_ifs at hres with hdup
        injection hres with hres
        subst hres
        unfold registryLookup
        rw [registryLookup_append s owner salt _ hreg]
    | updateOp c n =>
      cases hres : updateImplementation s c n with
      | error e => simp [stepFactory, hres]
      | ok s' =>
        simp only [stepFactory, hres]
        unfold updateImplementation at hres
        split_ifs at hres
        injection hres with hres
        subst hres
        rfl

/-- Witness for C2: deploying (owner 3, salt 9) twice on a fresh factory:
the first call succeeds and registers the predicted address; the second
fails AlreadyDeployed and leaves the state unchanged. -/
theorem deployment_uniqueness_witness :
    deployIdentity
      { admin := 1, identityCode := 2, deploymentCount := 1,
        registry := [((3, 9), deterministicAddress 2 3 9)] } 3 9 =
      .error .alreadyDeployed ∧
    registryLookup (initFactory 1 2) 3 9 = none := by
  constructor
  · exact ((deployment_uniqueness.1
      { admin := 1, identityCode := 2, deploymentCount := 1,
        registry := [((3, 9), deterministicAddress 2 3 9)] } 3 9 (by decide))).1
  · exact (deployment_uniqueness.2.1 (initFactory 1 2) 3 9
      { admin := 1, identityCode := 2, deploymentCount := 1,
        registry := [((3, 9), deterministicAddress 2 3 9)] } rfl).1

/-- C5: getIdentityAddress is a pure function of the factory state and the
(owner, salt) pair — repeated queries on one state trivially agree — and a
successful deployIdentity (indeed, any sequence of deploy transactions)
leaves the predicted address unchanged, so prediction before deployment
and confirmation after deployment return the identical address. -/
theorem address_determinism :
    (∀ (s : FactoryState) (owner salt : Nat) (s' : FactoryState),
      deployIdentity s owner salt = .ok s' →
        getIdentityAddress s' owner salt = getIdentityAddress s owner salt) ∧
    (∀ (s : FactoryState) (ops : List FactoryOp) (owner salt : Nat),
      (∀ op ∈ ops, ∀ c n, op ≠ .updateOp c n) →
        getIdentityAddress (ops.foldl stepFactory s) owner salt =
          getIdentityAddress s owner salt) := by
  constructor
  · intro s owner salt s' hok
    unfold deployIdentity at hok
    split_ifs at hok
    injection hok with hok
    subst hok
    rfl
  · intro s ops
    induction ops generalizing s with
    | nil => intro owner salt _; rfl
    | cons op rest ih =>
      intro owner salt hdep
      rw [List.foldl_cons]
      have hstep : (stepFactory s op).identityCode = s.identityCode := by
        cases op with
        | deployOp o v =>
          simp only [stepFactory]
          cases hres : deployIdentity s o v with
          | error e => rfl
          | ok s' =>
            unfold deployIdentity at hres
            split_ifs at hres
            injection hres with hres
            subst hres
            rfl
        | updateOp c n =>
          exact absurd rfl (hdep (.updateOp c n) (by simp) c n)
      have := ih (stepFactory s op) owner salt
        (fun o ho c n => hdep o (by simp [ho]) c n)
      rw [this]
      unfold getIdentityAddress deterministicAddress
      rw [hstep]

/-- Witness for C5: on a fresh factory, deploying (3, 9) does not change
the predicted address for (3, 9), and deploy-only histories preserve it. -/
theorem address_determinism_witness :
    getIdentityAddress
      { admin := 1, identityCode := 2, deploymentCount := 1,
        registry := [((3, 9), deterministicAddress 2 3 9)] } 3 9 =
      getIdentityAddress (initFactory 1 2) 3 9 ∧
    getIdentityAddress
      ([FactoryOp.deployOp 3 9].foldl stepFactory (initFactory 1 2)) 3 9 =
      getIdentityAddress (initFactory 1 2) 3 9 :=
  ⟨address_determinism.1 (initFactory 1 2) 3 9
      { admin := 1, identityCode := 2, deploymentCount := 1,
        registry := [((3, 9), deterministicAddress 2 3 9)] } rfl,
   address_determinism.2 (initFactory 1 2) [FactoryOp.deployOp 3 9] 3 9
      (by intro op hop c n; simp at hop; simp [hop])⟩

/-- The five compliance rule types of the spec's rule engine. -/
inductive RuleType where
  | kycRequired
  | maxHolders
  | fatfTravelRule
  | micaCompliance
  | regDLockup
deriving Repr, DecidableEq

/-- A configurable compliance rule: id, type, active flag, opaque
parameter map. -/
structure ComplianceRule where
  ruleId : Nat
  ruleType : RuleType
  active : Bool
  parameters : List (String × Nat)
deriving Repr, DecidableEq

/-- Modelled from the spec: the ComplianceGateway holds references to a
ClaimIssuer and an IdentityFactory registry, the required claim topics,
the rule set, and read-only external collaborators (holder registry,
current time). -/
structure GatewayState where
  claimIssuer : IssuerState
  factory : FactoryState
  requiredTopics : List Nat
  rules : List ComplianceRule
  holders : List Nat
  now : Nat
deriving Repr, DecidableEq

/-- Result of a compliance check: the verdict plus every failing reason. -/
structure ComplianceResult where
  allowed : Bool
  reasons : List String
deriving Repr, DecidableEq

/-- Lookup in a rule's opaque parameter map, defaulting to 0. -/
def paramLookup (ps : List (String × Nat)) (k : String) : Nat :=
  ((ps.find? (fun p => p.1 == k)).map Prod.snd).getD 0

/-- A topic is satisfied when any indexed claim for that (identity, topic)
pair is currently valid — the spec's any-valid tie-break rule. -/
def topicSatisfied (s : IssuerState) (ident topic : Nat) : Bool :=
  (getClaimIdsByTopic s ident topic).any (fun id => isClaimValid s id)

/-- Modelled from the spec: evaluation of one active compliance rule
against (from, to, amount); KYC requires both sides to satisfy topic 1,
MAX_HOLDERS consults the external holder registry against the configured
cap, FATF applies the jurisdiction-claim requirement above the configured
threshold, MiCA requires jurisdiction claims, and Reg D compares the
configured lockup end against the current time. -/
def evalRule (g : GatewayState) (fromI toI amount : Nat)
    (r : ComplianceRule) : Bool :=
  match r.ruleType with
  | .kycRequired =>
    topicSatisfied g.claimIssuer fromI 1 && topicSatisfied g.claimIssuer toI 1
  | .maxHolders =>
    g.holders.contains toI ||
      decide (g.holders.length + 1 ≤ paramLookup r.parameters "maxHolders")
  | .fatfTravelRule =>
    decide (amount ≤ paramLookup r.parameters "threshold") ||
      (topicSatisfied g.claimIssuer fromI 4 && topicSatisfied g.claimIssuer toI 4)
  | .micaCompliance =>
    topicSatisfied g.claimIssuer fromI 4 && topicSatisfied g.claimIssuer toI 4
  | .regDLockup =>
    decide (paramLookup r.parameters "until" ≤ g.now)

/-- Modelled from the spec: performComplianceCheck resolves both parties
through the factory registry and fails closed with reason "unregistered
identity" when either side is not a registered Identity; otherwise it
collects every missing required topic and every failing active rule, and
allows the transfer only when nothing failed. -/
def performComplianceCheck (g : GatewayState)
    (fromA toA amount tokenA : Nat) : ComplianceResult :=
  if !(isValidIdentity g.factory fromA && isValidIdentity g.factory toA) then
    { allowed := false, reasons := ["unregistered identity"] }
  else
    let missing := g.requiredTopics.filter (fun t =>
      !(topicSatisfied g.claimIssuer fromA t && topicSatisfied g.claimIssuer toA t))
    let failed := (g.rules.filter (fun r => r.active)).filter (fun r =>
      !(evalRule g fromA toA amount r))
    { allowed := missing.isEmpty && failed.isEmpty,
      reasons := missing.map (fun t => "missing required topic " ++ toString t)
        ++ failed.map (fun r => "failed rule " ++ toString r.ruleId) }

/-- C9: performComplianceCheck fails closed — whenever either party is not
an identity registered by the factory the verdict is allowed = false with
the "unregistered identity" reason, whatever the configured topics and
rules are — and isValidIdentity is false for every address the factory
never deployed and registered. -/
theorem compliance_fail_closed :
    (∀ (g : GatewayState) (fromA toA amount tokenA : Nat),
      isValidIdentity g.factory fromA = false ∨
      isValidIdentity g.factory toA = false →
        performComplianceCheck g fromA toA amount tokenA =
          { allowed := false, reasons := ["unregistered identity"] }) ∧
    (∀ (s : FactoryState) (a : Nat),
      a ∉ s.registry.map Prod.snd → isValidIdentity s a = false) := by
  constructor
  · intro g fromA toA amount tokenA hbad
    have hand : (isValidIdentity g.factory fromA &&
        isValidIdentity g.factory toA) = false := by
      rcases hbad with h | h
      · rw [h, Bool.false_and]
      · rw [h, Bool.and_false]
    simp [performComplianceCheck, hand]
  · intro s a hnot
    unfold isValidIdentity
    rw [List.any_eq_false]
    intro e he hcontra
    simp only [beq_iff_eq] at hcontra
    exact hnot (hcontra ▸ List.mem_map_of_mem Prod.snd he)

/-- Witness for C9: on a gateway whose factory registered only address 42,
a check between 42 and the unregistered 43 is denied with the
"unregistered identity" reason even though no rule is configured against
it, and isValidIdentity rejects 43. -/
theorem compliance_fail_closed_witness :
    performComplianceCheck
      { claimIssuer := initIssuer 5,
        factory := { admin := 1, identityCode := 2, deploymentCount := 1,
                     registry := [((3, 9), 42)] },
        requiredTopics := [], rules := [], holders := [], now := 0 }
      42 43 100 7 =
      { allowed := false, reasons := ["unregistered identity"] } ∧
    isValidIdentity
      { admin := 1, identityCode := 2, deploymentCount := 1,
        registry := [((3, 9), 42)] } 43 = false :=
  ⟨compliance_fail_closed.1
    { claimIssuer := initIssuer 5,
      factory := { admin := 1, identityCode := 2, deploymentCount := 1,
                   registry := [((3, 9), 42)] },
      requiredTopics := [], rules := [], holders := [], now := 0 }
    42 43 100 7 (Or.inr (by decide)),
   compliance_fail_closed.2
    { admin := 1, identityCode := 2, deploymentCount := 1,
      registry := [((3, 9), 42)] } 43 (by decide)⟩

/-- An item stored in a TON cell by the wrapper builders: an address, a
fixed-width unsigned integer, or a reference to another cell. -/
inductive CellItem where
  | addr (a : Nat)
  | uint (v bits : Nat)
  | ref (c : List CellItem)
deriving Repr

/-- A cell is the list of items stored into it, in builder order. -/
abbrev CellModel := List CellItem

/-- The TonClaimIssuerConfig type of
src/TOKENS AWS KYC REP ID ONCHAIN/kyc/identity-contracts/TonClaimIssuer.ts:
owner, nextClaimId, and the authorizedIssuers map. -/
structure TonClaimIssuerConfig where
  owner : Nat
  nextClaimId : Nat
  authorizedIssuers : List (String × Bool)
deriving Repr, DecidableEq

/-- Translation of `tonClaimIssuerConfigToCell` (TonClaimIssuer.ts, lines
29-34): beginCell().storeAddress(config.owner)
.storeUint(config.nextClaimId, 64).endCell() — the authorizedIssuers field
of the config is never stored. -/
def tonClaimIssuerConfigToCell (config : TonClaimIssuerConfig) : CellModel :=
  [CellItem.addr config.owner,
   CellItem.uint (config.nextClaimId % 2 ^ 64) 64]

/-- Translation of `contractAddress(workchain, init)` as used by
`createFromConfig`: a deterministic, injective function of the workchain
and the init pair (code, data), modelled as the tuple itself. -/
def contractAddressOf (workchain : Nat) (code dataCell : CellModel) :
    Nat × CellModel × CellModel :=
  (workchain, code, dataCell)

/-- Translation of `TonClaimIssuer.createFromConfig` (TonClaimIssuer.ts,
lines 42-46): data = tonClaimIssuerConfigToCell(config); the contract is
placed at contractAddress(workchain, (code, data)). -/
def createFromConfig (config : TonClaimIssuerConfig) (code : CellModel)
    (workchain : Nat) : Nat × CellModel × CellModel :=
  contractAddressOf workchain code (tonClaimIssuerConfigToCell config)

/-- C10: tonClaimIssuerConfigToCell serializes only the owner and
nextClaimId; two configs that agree on those but differ arbitrarily in
authorizedIssuers produce the identical init-data cell and the identical
createFromConfig address, so the caller-supplied map never reaches the
deployed issuer's initial state. -/
theorem config_cell_discards_issuers :
    ∀ (c1 c2 : TonClaimIssuerConfig) (code : CellModel) (workchain : Nat),
      c1.owner = c2.owner → c1.nextClaimId = c2.nextClaimId →
        tonClaimIssuerConfigToCell c1 = tonClaimIssuerConfigToCell c2 ∧
        createFromConfig c1 code workchain = createFromConfig c2 code workchain := by
  intro c1 c2 code workchain ho hn
  have hcell : tonClaimIssuerConfigToCell c1 = tonClaimIssuerConfigToCell c2 := by
    unfold tonClaimIssuerConfigToCell
    rw [ho, hn]
  exact ⟨hcell, by unfold createFromConfig contractAddressOf; rw [hcell]⟩

/-- Witness for C10: two configs with the same owner 5 and nextClaimId 1
but different authorizedIssuers maps serialize to the same cell and the
same contract address. -/
theorem config_cell_discards_issuers_witness :
    tonClaimIssuerConfigToCell
        { owner := 5, nextClaimId := 1, authorizedIssuers := [("EQdeployer", true)] } =
      tonClaimIssuerConfigToCell
        { owner := 5, nextClaimId := 1, authorizedIssuers := [] } ∧
    createFromConfig
        { owner := 5, nextClaimId := 1, authorizedIssuers := [("EQdeployer", true)] }
        [CellItem.uint 77 8] 0 =
      createFromConfig
        { owner := 5, nextClaimId := 1, authorizedIssuers := [] }
        [CellItem.uint 77 8] 0 :=
  config_cell_discards_issuers
    { owner := 5, nextClaimId := 1, authorizedIssuers := [("EQdeployer", true)] }
    { owner := 5, nextClaimId := 1, authorizedIssuers := [] }
    [CellItem.uint 77 8] 0 rfl rfl
